import Mathlib

/-!
Shallow embedding of the Consul Catalog configuration builder
(`pkg/provider/consulcatalog/config.go`): the batch builder
`buildConfiguration`, the eligibility filter `keepContainer`, the two
fragment completers and the two endpoint resolvers `addServerTCP` /
`addServer`.  External collaborators (label decoder, constraint matcher,
router synthesizers, generic merge) are parameters gathered in
`Externals`.  Go's in-place mutation is rendered as explicit state
passing: each mutating function returns the final state of the value it
mutates together with the error it returns, so error paths that leave
partial mutations behind are modelled faithfully.
-/

namespace ConsulCatalog

/-- Health status constants of the external hashicorp/consul api package.
Modelled from the spec: health status is an enum containing "passing" and
"warning" ("critical" and unknown statuses are excluded by the filter);
the consul api source is outside the given slice. -/
def HealthPassing : String := "passing"

/-- Health status constant "warning"; see `HealthPassing`. -/
def HealthWarning : String := "warning"

/-- Pre-parsed label directives carried by an item (`item.ExtraConf`); only
the Enable flag is read by this slice. -/
structure ExtraConf where
  enable : Bool
deriving DecidableEq, Repr

/-- One registry entry (`itemData`). Modelled from the spec: the struct is
declared outside the given slice; the fields are the ones this slice reads
(identity, network location, health status, tags, labels, directives). -/
structure ItemData where
  id : String
  node : String
  name : String
  address : String
  port : String
  status : String
  labels : List (String × String)
  tags : List String
  extraConf : ExtraConf
deriving DecidableEq, Repr

/-- A transport-layer server endpoint (`dynamic.TCPServer`). Modelled from
the spec: the dynamic-configuration package is outside the given slice; a
TCP endpoint is an address plus a standalone port field that gets folded
into the combined address string on resolution. -/
structure TCPServer where
  address : String
  port : String
deriving DecidableEq, Repr

/-- A transport-layer load balancer (`dynamic.TCPServersLoadBalancer`):
the ordered server slots. Modelled from the spec; fields this slice never
reads (e.g. the termination delay set by SetDefaults) are omitted. -/
structure TCPServersLoadBalancer where
  servers : List TCPServer
deriving DecidableEq, Repr

/-- A transport-layer service (`dynamic.TCPService`): wraps one load
balancer, which may be nil. Modelled from the spec. -/
structure TCPService where
  loadBalancer : Option TCPServersLoadBalancer
deriving DecidableEq, Repr

/-- A transport-layer router (`dynamic.TCPRouter`). Its contents are opaque
to this slice (only counted and passed to the external synthesizer).
Modelled from the spec. -/
structure TCPRouter where
  rule : String
deriving DecidableEq, Repr

/-- The transport-layer section of a fragment (`dynamic.TCPConfiguration`):
name-keyed routers and services. Go maps are rendered as association
lists. Modelled from the spec. -/
structure TCPConfiguration where
  routers : List (String × TCPRouter)
  services : List (String × TCPService)
deriving DecidableEq, Repr

/-- An application-layer server endpoint (`dynamic.Server`): the combined
connection URL, a scheme and a standalone port field. Modelled from the
spec. -/
structure Server where
  url : String
  scheme : String
  port : String
deriving DecidableEq, Repr

/-- Modelled from the spec: `dynamic.Server.SetDefaults` (outside the given
slice) populates the default scheme used to build the connection URL. -/
def Server.setDefaults (s : Server) : Server :=
  { s with scheme := "http", port := "" }

/-- An application-layer load balancer (`dynamic.ServersLoadBalancer`):
the ordered server slots; fields this slice never reads are omitted.
Modelled from the spec. -/
structure ServersLoadBalancer where
  servers : List Server
deriving DecidableEq, Repr

/-- An application-layer service (`dynamic.Service`): wraps one load
balancer, which may be nil. Modelled from the spec. -/
structure Service where
  loadBalancer : Option ServersLoadBalancer
deriving DecidableEq, Repr

/-- An application-layer middleware, opaque to this slice (only counted).
Modelled from the spec. -/
structure Middleware where
  raw : String
deriving DecidableEq, Repr

/-- An application-layer router, opaque to this slice (only counted and
passed to the external synthesizer). Modelled from the spec. -/
structure Router where
  rule : String
deriving DecidableEq, Repr

/-- The application-layer section of a fragment
(`dynamic.HTTPConfiguration`). Modelled from the spec. -/
structure HTTPConfiguration where
  routers : List (String × Router)
  middlewares : List (String × Middleware)
  services : List (String × Service)
deriving DecidableEq, Repr

/-- A configuration fragment (`dynamic.Configuration`): the pair of
sub-configurations this slice populates (sections it never touches, such
as TLS, are omitted). Modelled from the spec. -/
structure Configuration where
  http : HTTPConfiguration
  tcp : TCPConfiguration
deriving DecidableEq, Repr

/-- The anonymous template model handed to the application-layer router
synthesizer (buildConfiguration lines 59 to 65): the item's name and
labels. -/
structure RouterModel where
  name : String
  labels : List (String × String)
deriving DecidableEq, Repr

/-- Provider state read by this slice (the operator-supplied constraint
expression and the default rule template). Modelled from the spec: the
Provider struct is declared outside the given slice; the template is kept
opaque as a string. -/
structure Provider where
  constraints : String
  defaultRuleTpl : String
deriving DecidableEq, Repr

/-- External collaborators consumed through narrow interfaces (spec
section 6): label decoder, constraint matcher, the two router synthesizers
and the generic merge step. -/
structure Externals where
  decodeConfiguration : List (String × String) → Except String Configuration
  matchTags : List String → String → Except String Bool
  buildTCPRouterConfiguration : TCPConfiguration → TCPConfiguration
  buildRouterConfiguration : HTTPConfiguration → String → String → RouterModel → HTTPConfiguration
  merge : (String → Option Configuration) → Configuration

/-- Go's net.JoinHostPort: joins host and port with a colon, bracketing
the host when it contains a colon (the membership test is phrased on the
character list, which coincides with the string containment test). -/
def joinHostPort (host port : String) : String :=
  if host.data.contains ':' then "[" ++ host ++ "]:" ++ port else host ++ ":" ++ port

/-- addServerTCP (config.go lines 147 to 172): resolves the transport-layer
endpoint into the first server slot.  Returns the final load-balancer
state paired with the returned error (none on success); the Go code
mutates the load balancer in place even on error paths, which the state
component reflects. -/
def addServerTCP (item : ItemData) (loadBalancer : Option TCPServersLoadBalancer) :
    Option TCPServersLoadBalancer × Option String :=
  match loadBalancer with
  | none => (none, some "load-balancer is not defined")
  | some lb0 =>
    let lb1 := if lb0.servers.length == 0 then
        { lb0 with servers := [{ address := "", port := "" }] }
      else lb0
    let port := if item.port != "" then item.port else ""
    let lb2 := if item.port != "" then
        { lb1 with servers := lb1.servers.modifyHead fun s => { s with port := "" } }
      else lb1
    if port == "" then (some lb2, some "port is missing")
    else if item.address == "" then (some lb2, some "address is missing")
    else
      (some { lb2 with servers := lb2.servers.modifyHead fun s =>
          { s with address := joinHostPort item.address port } }, none)

/-- addServer (config.go lines 174 to 208): resolves the application-layer
endpoint into the first server slot, reading the slot's pre-existing port
as a fallback and combining the slot's scheme with the host and port into
the URL (clearing the scheme afterwards).  Same state-passing convention
as `addServerTCP`. -/
def addServer (item : ItemData) (loadBalancer : Option ServersLoadBalancer) :
    Option ServersLoadBalancer × Option String :=
  match loadBalancer with
  | none => (none, some "load-balancer is not defined")
  | some lb0 =>
    let port0 := match lb0.servers with
      | [] => ""
      | s :: _ => s.port
    let lb1 := if lb0.servers.length == 0 then
        { lb0 with servers := [Server.setDefaults { url := "", scheme := "", port := "" }] }
      else lb0
    let port := if item.port != "" then item.port else port0
    let lb2 := if item.port != "" then
        { lb1 with servers := lb1.servers.modifyHead fun s => { s with port := "" } }
      else lb1
    if port == "" then (some lb2, some "port is missing")
    else if item.address == "" then (some lb2, some "address is missing")
    else
      (some { lb2 with servers := lb2.servers.modifyHead fun s =>
          { s with url := s.scheme ++ "://" ++ joinHostPort item.address port,
                   scheme := "" } }, none)

/-- Loop body of buildTCPServiceConfiguration (lines 113 to 119): resolve
each service's load balancer, stopping at the first error.  Go iterates a
map in unspecified order; the association list fixes declaration order. -/
def addServerTCPAll (item : ItemData) :
    List (String × TCPService) → List (String × TCPService) × Option String
  | [] => ([], none)
  | (name, svc) :: rest =>
    match addServerTCP item svc.loadBalancer with
    | (lb, some e) => ((name, { svc with loadBalancer := lb }) :: rest, some e)
    | (lb, none) =>
      let r := addServerTCPAll item rest
      ((name, { svc with loadBalancer := lb }) :: r.1, r.2)

/-- buildTCPServiceConfiguration (config.go lines 101 to 122): when the
fragment declares no transport-layer service, synthesize one named after
the item with a fresh default load balancer (SetDefaults touches no field
this slice reads), then resolve every declared service's endpoint. -/
def buildTCPServiceConfiguration (item : ItemData) (configuration : TCPConfiguration) :
    TCPConfiguration × Option String :=
  let configuration := if configuration.services.length == 0 then
      { configuration with services := [(item.name, { loadBalancer := some { servers := [] } })] }
    else configuration
  let r := addServerTCPAll item configuration.services
  ({ configuration with services := r.1 }, r.2)

/-- Loop body of buildServiceConfiguration (lines 136 to 142); see
`addServerTCPAll`. -/
def addServerAll (item : ItemData) :
    List (String × Service) → List (String × Service) × Option String
  | [] => ([], none)
  | (name, svc) :: rest =>
    match addServer item svc.loadBalancer with
    | (lb, some e) => ((name, { svc with loadBalancer := lb }) :: rest, some e)
    | (lb, none) =>
      let r := addServerAll item rest
      ((name, { svc with loadBalancer := lb }) :: r.1, r.2)

/-- buildServiceConfiguration (config.go lines 124 to 145): the
application-layer fragment completer; same shape as
`buildTCPServiceConfiguration`. -/
def buildServiceConfiguration (item : ItemData) (configuration : HTTPConfiguration) :
    HTTPConfiguration × Option String :=
  let configuration := if configuration.services.length == 0 then
      { configuration with services := [(item.name, { loadBalancer := some { servers := [] } })] }
    else configuration
  let r := addServerAll item configuration.services
  ({ configuration with services := r.1 }, r.2)

/-- keepContainer (config.go lines 75 to 99): the eligibility filter.  An
item is kept when it is enabled, its tags match the constraint expression
without error (a matcher error counts as non-match), and its health status
is passing or warning. -/
def keepContainer (E : Externals) (p : Provider) (item : ItemData) : Bool :=
  if !item.extraConf.enable then false
  else
    match E.matchTags item.tags p.constraints with
    | Except.error _ => false
    | Except.ok matched =>
      if !matched then false
      else if item.status != HealthPassing && item.status != HealthWarning then false
      else true

/-- The derived disambiguation key (config.go line 21):
node ++ "-" ++ name ++ "-" ++ id. -/
def svcKey (node name id : String) : String :=
  node ++ "-" ++ name ++ "-" ++ id

/-- Assignment configurations[svcName] = confFromLabel into the Go map,
modelled as a finite partial function: a later insertion under the same
key replaces the earlier value. -/
def insertConf (m : String → Option Configuration) (k : String) (v : Configuration) :
    String → Option Configuration :=
  fun k' => if k' = k then some v else m k'

/-- The emptiness test on the application-layer section (config.go lines
45 to 47). -/
def httpEmpty (c : HTTPConfiguration) : Bool :=
  c.routers.length == 0 && c.middlewares.length == 0 && c.services.length == 0

/-- Tail of the per-item loop body from line 53 on: application-layer
completion, router synthesis and recording; reached when the fragment has
no transport-layer content or has application-layer content as well. -/
def buildConfigurationHTTPStep (E : Externals) (p : Provider)
    (m : String → Option Configuration) (svcName : String) (item : ItemData)
    (confFromLabel : Configuration) : String → Option Configuration :=
  match buildServiceConfiguration item confFromLabel.http with
  | (_, some _) => m
  | (httpConf, none) =>
    let model : RouterModel := { name := item.name, labels := item.labels }
    let httpConf := E.buildRouterConfiguration httpConf item.name p.defaultRuleTpl model
    insertConf m svcName { confFromLabel with http := httpConf }

/-- One iteration of the buildConfiguration loop (config.go lines 20 to
70) acting on the accumulated key-to-fragment map. -/
def buildConfigurationStep (E : Externals) (p : Provider)
    (m : String → Option Configuration) (item : ItemData) : String → Option Configuration :=
  let svcName := svcKey item.node item.name item.id
  if !keepContainer E p item then m
  else
    match E.decodeConfiguration item.labels with
    | Except.error _ => m
    | Except.ok confFromLabel =>
      if confFromLabel.tcp.routers.length > 0 || confFromLabel.tcp.services.length > 0 then
        match buildTCPServiceConfiguration item confFromLabel.tcp with
        | (_, some _) => m
        | (tcpConf, none) =>
          let confFromLabel := { confFromLabel with tcp := E.buildTCPRouterConfiguration tcpConf }
          if httpEmpty confFromLabel.http then insertConf m svcName confFromLabel
          else buildConfigurationHTTPStep E p m svcName item confFromLabel
      else buildConfigurationHTTPStep E p m svcName item confFromLabel

/-- The key-to-fragment map accumulated by buildConfiguration (lines 18 to
70) before the merge handoff: the GlobalConfiguration of the spec. -/
def buildConfigurations (E : Externals) (p : Provider) (items : List ItemData) :
    String → Option Configuration :=
  items.foldl (buildConfigurationStep E p) (fun _ => none)

/-- buildConfiguration (config.go lines 17 to 73): folds all per-item
fragments into the key-to-fragment map and hands it to the external merge.
Total by construction: it returns a configuration for every input, never
an error. -/
def buildConfiguration (E : Externals) (p : Provider) (items : List ItemData) : Configuration :=
  E.merge (buildConfigurations E p items)

/-- Holds when decoding, transport-layer completion or application-layer
completion of the item fails, i.e. the loop body would hit one of its
log-and-continue error branches (config.go lines 31, 38 and 54) were the
item kept. -/
def itemFailure (E : Externals) (item : ItemData) : Bool :=
  match E.decodeConfiguration item.labels with
  | Except.error _ => true
  | Except.ok confFromLabel =>
    if confFromLabel.tcp.routers.length > 0 || confFromLabel.tcp.services.length > 0 then
      match buildTCPServiceConfiguration item confFromLabel.tcp with
      | (_, some _) => true
      | (tcpConf, none) =>
        let confFromLabel := { confFromLabel with tcp := E.buildTCPRouterConfiguration tcpConf }
        if httpEmpty confFromLabel.http then false
        else (buildServiceConfiguration item confFromLabel.http).2.isSome
    else (buildServiceConfiguration item confFromLabel.http).2.isSome

/-- The fragment `recordedFragment` effectively stores in the
application-layer recording case (line 69). -/
def recordedFragmentHTTP (E : Externals) (p : Provider) (item : ItemData)
    (confFromLabel : Configuration) : Option Configuration :=
  match buildServiceConfiguration item confFromLabel.http with
  | (_, some _) => none
  | (httpConf, none) =>
    let model : RouterModel := { name := item.name, labels := item.labels }
    let httpConf := E.buildRouterConfiguration httpConf item.name p.defaultRuleTpl model
    some { confFromLabel with http := httpConf }

/-- The fragment the loop body records for the item under its derived key
(configurations[svcName] = confFromLabel, lines 48 and 69), or none when
the item is filtered out or fails. -/
def recordedFragment (E : Externals) (p : Provider) (item : ItemData) : Option Configuration :=
  if !keepContainer E p item then none
  else
    match E.decodeConfiguration item.labels with
    | Except.error _ => none
    | Except.ok confFromLabel =>
      if confFromLabel.tcp.routers.length > 0 || confFromLabel.tcp.services.length > 0 then
        match buildTCPServiceConfiguration item confFromLabel.tcp with
        | (_, some _) => none
        | (tcpConf, none) =>
          let confFromLabel := { confFromLabel with tcp := E.buildTCPRouterConfiguration tcpConf }
          if httpEmpty confFromLabel.http then some confFromLabel
          else recordedFragmentHTTP E p item confFromLabel
      else recordedFragmentHTTP E p item confFromLabel

/-- The port `addServer` resolves: the item's own port when non-empty,
else the first slot's pre-existing port, else empty.  Specification
helper used to state the resolver theorems. -/
def resolvedPortHTTP (item : ItemData) (lb : ServersLoadBalancer) : String :=
  if item.port != "" then item.port
  else match lb.servers with
    | [] => ""
    | s :: _ => s.port

/-- An empty configuration fragment; sample value for witnesses. -/
def emptyConfiguration : Configuration :=
  { http := { routers := [], middlewares := [], services := [] },
    tcp := { routers := [], services := [] } }

/-- Sample collaborators: decoding always yields the empty fragment, every
tag matches, both synthesizers leave the fragment unchanged. -/
def trivialExternals : Externals :=
  { decodeConfiguration := fun _ => Except.ok emptyConfiguration,
    matchTags := fun _ _ => Except.ok true,
    buildTCPRouterConfiguration := fun c => c,
    buildRouterConfiguration := fun c _ _ _ => c,
    merge := fun _ => emptyConfiguration }

/-- Sample collaborators whose decoder yields a transport-layer-only
fragment with one declared service. -/
def tcpExternals : Externals :=
  { trivialExternals with
    decodeConfiguration := fun _ => Except.ok
      { http := { routers := [], middlewares := [], services := [] },
        tcp := { routers := [],
                 services := [("db", { loadBalancer := some { servers := [] } })] } } }

/-- Sample collaborators whose decoder always fails. -/
def failingExternals : Externals :=
  { trivialExternals with decodeConfiguration := fun _ => Except.error "invalid label" }

/-- Sample provider state for witnesses. -/
def sampleProvider : Provider :=
  { constraints := "", defaultRuleTpl := "Host" }

/-- Sample eligible registry entry for witnesses. -/
def sampleItem : ItemData :=
  { id := "i1", node := "n1", name := "svc", address := "10.0.0.5", port := "8080",
    status := "passing", labels := [], tags := [], extraConf := { enable := true } }

theorem addServerTCP_eq_of_port_empty (item : ItemData)
    (ltcp : TCPServersLoadBalancer) (hp : item.port = "") :
    (addServerTCP item (some ltcp)).2 = some "port is missing" := by
  unfold addServerTCP
  simp [hp]

/-- C1 (amended): for an item with empty address and a defined load
balancer, both resolvers fail: with the missing-address error whenever a
port could be resolved, and with the missing-port error when the port is
missing as well (the port check precedes the address check). -/
theorem resolve_missing_address (item : ItemData) (ltcp : TCPServersLoadBalancer)
    (lhttp : ServersLoadBalancer) (h : item.address = "") :
    (addServerTCP item (some ltcp)).2 =
      (if item.port = "" then some "port is missing" else some "address is missing") ∧
    (addServer item (some lhttp)).2 =
      (if resolvedPortHTTP item lhttp = "" then some "port is missing"
       else some "address is missing") := by
  constructor
  · unfold addServerTCP
    by_cases hp : item.port = "" <;> simp [hp, h]
  · unfold addServer resolvedPortHTTP
    by_cases hp : item.port = ""
    · cases hs : lhttp.servers with
      | nil => simp [hp, h, hs]
      | cons s rest => by_cases hsp : s.port = "" <;> simp [hp, h, hs, hsp]
    · simp [hp, h]

/-- C1 witness: concrete instantiation of `resolve_missing_address` with a
non-empty port, where both resolvers do return the missing-address error. -/
theorem resolve_missing_address_witness :
    (addServerTCP { sampleItem with address := "" } (some { servers := [] })).2 =
      some "address is missing" ∧
    (addServer { sampleItem with address := "" } (some { servers := [] })).2 =
      some "address is missing" :=
  resolve_missing_address { sampleItem with address := "" } { servers := [] }
    { servers := [] } rfl

/-- C1 counterexample: an item with empty address and empty port gets the
missing-port error from both resolvers, not the missing-address error the
claim requires regardless of port. -/
theorem resolve_missing_address_counterexample :
    (addServerTCP { sampleItem with address := "", port := "" }
        (some { servers := [] })).2 ≠ some "address is missing" ∧
    (addServer { sampleItem with address := "", port := "" }
        (some { servers := [] })).2 ≠ some "address is missing" := by
  constructor <;> decide

/-- C2 (amended): an entry-supplied port always wins over a pre-existing
slot port and never the reverse; `addServer` falls back to the first
slot's pre-existing port when the entry's port is empty; `addServerTCP`
performs no such fallback and fails with the missing-port error whenever
the entry's port is empty, even when the first slot carries a port. -/
theorem resolve_port_choice (item : ItemData) (s : Server) (rest : List Server)
    (ltcp : TCPServersLoadBalancer) :
    (item.port ≠ "" → item.address ≠ "" →
      addServer item (some { servers := s :: rest }) =
        (some { servers := { s with port := "", scheme := "", url := s.scheme ++ "://" ++ joinHostPort item.address item.port } :: rest },
         none)) ∧
    (item.port = "" → s.port ≠ "" → item.address ≠ "" →
      addServer item (some { servers := s :: rest }) =
        (some { servers := { s with scheme := "", url := s.scheme ++ "://" ++ joinHostPort item.address s.port } :: rest },
         none)) ∧
    (item.port = "" → (addServerTCP item (some ltcp)).2 = some "port is missing") := by
  refine ⟨?_, ?_, ?_⟩
  · intro hp ha
    unfold addServer
    simp [hp, ha, List.modifyHead]
  · intro hp hsp ha
    unfold addServer
    simp [hp, hsp, ha, List.modifyHead]
  · intro hp
    exact addServerTCP_eq_of_port_empty item ltcp hp

/-- C2 witness: concrete instantiations of `resolve_port_choice`: the entry
port 9000 wins over the slot port 80; with an empty entry port `addServer`
uses the slot port 80 while `addServerTCP` fails. -/
theorem resolve_port_choice_witness :
    addServer { sampleItem with port := "9000" }
        (some { servers := [{ url := "", scheme := "http", port := "80" }] }) =
      (some { servers := [{ url := "http://10.0.0.5:9000", scheme := "", port := "" }] },
       none) ∧
    addServer { sampleItem with port := "" }
        (some { servers := [{ url := "", scheme := "http", port := "80" }] }) =
      (some { servers := [{ url := "http://10.0.0.5:80", scheme := "", port := "80" }] },
       none) ∧
    (addServerTCP { sampleItem with port := "" }
        (some { servers := [{ address := "", port := "8080" }] })).2 =
      some "port is missing" :=
  ⟨((resolve_port_choice { sampleItem with port := "9000" }
      { url := "", scheme := "http", port := "80" } [] { servers := [] }).1
      (by decide) (by decide)).trans (by decide),
   ((resolve_port_choice { sampleItem with port := "" }
      { url := "", scheme := "http", port := "80" } [] { servers := [] }).2.1
      (by decide) (by decide) (by decide)).trans (by decide),
   (resolve_port_choice { sampleItem with port := "" }
      { url := "", scheme := "http", port := "80" } []
      { servers := [{ address := "", port := "8080" }] }).2.2 (by decide)⟩

/-- C2 counterexample: with an empty entry port and a first slot carrying
port 8080, `addServerTCP` fails with the missing-port error instead of
falling back to the slot port as the claim states for both resolvers. -/
theorem resolve_port_choice_counterexample :
    (addServerTCP { sampleItem with port := "" }
        (some { servers := [{ address := "", port := "8080" }] })).2 =
      some "port is missing" ∧ "8080" ≠ "" := by
  constructor <;> decide

/-- C6 counterexample: `addServer` succeeds while falling back to the
slot's pre-existing port 80, and afterwards the first slot's standalone
port field still holds "80": it is not cleared. -/
theorem resolve_clears_port_counterexample :
    addServer { sampleItem with port := "" }
        (some { servers := [{ url := "u0", scheme := "http", port := "80" }] }) =
      (some { servers := [{ url := "http://10.0.0.5:80", scheme := "", port := "80" }] },
       none) ∧ "80" ≠ "" := by
  constructor <;> decide

/-- C6 (amended): after a successful resolution the first slot's
standalone port field is empty whenever the chosen port came from the item
(which is always the case in `addServerTCP`); when `addServer` fell back
to the slot's pre-existing port, the field retains that pre-existing
value. -/
theorem resolve_clears_port (item : ItemData) (ltcp : TCPServersLoadBalancer)
    (s : Server) (rest : List Server) :
    (∀ l', addServerTCP item (some ltcp) = (some l', none) →
      ∃ t tr, l'.servers = t :: tr ∧ t.port = "") ∧
    (item.port ≠ "" →
      ∀ l', addServer item (some { servers := s :: rest }) = (some l', none) →
        ∃ t tr, l'.servers = t :: tr ∧ t.port = "") ∧
    (item.port = "" →
      ∀ l', addServer item (some { servers := s :: rest }) = (some l', none) →
        ∃ t tr, l'.servers = t :: tr ∧ t.port = s.port) := by
  refine ⟨?_, ?_, ?_⟩
  · intro l' h
    unfold addServerTCP at h
    by_cases hp : item.port = ""
    · simp [hp] at h
    · by_cases ha : item.address = ""
      · simp [hp, ha] at h
      · cases hs : ltcp.servers with
        | nil =>
          simp [hp, ha, hs, List.modifyHead] at h
          subst h
          exact ⟨_, _, rfl, rfl⟩
        | cons t0 tr0 =>
          simp [hp, ha, hs, List.modifyHead] at h
          subst h
          exact ⟨_, _, rfl, rfl⟩
  · intro hp l' h
    unfold addServer at h
    by_cases ha : item.address = ""
    · simp [hp, ha] at h
    · simp [hp, ha, List.modifyHead] at h
      subst h
      exact ⟨_, _, rfl, rfl⟩
  · intro hp l' h
    unfold addServer at h
    by_cases hsp : s.port = ""
    · simp [hp, hsp] at h
    · by_cases ha : item.address = ""
      · simp [hp, hsp, ha] at h
      · simp [hp, hsp, ha, List.modifyHead] at h
        subst h
        exact ⟨_, _, rfl, rfl⟩

/-- C6 witness: concrete instantiations of `resolve_clears_port` for the
TCP resolver and for both `addServer` cases. -/
theorem resolve_clears_port_witness :
    (∃ t tr, (⟨[{ address := "10.0.0.5:8080", port := "" }]⟩ :
        TCPServersLoadBalancer).servers = t :: tr ∧ t.port = "") ∧
    (∃ t tr, (⟨[{ url := "http://10.0.0.5:9000", scheme := "", port := "" }]⟩ :
        ServersLoadBalancer).servers = t :: tr ∧ t.port = "") ∧
    (∃ t tr, (⟨[{ url := "http://10.0.0.5:80", scheme := "", port := "80" }]⟩ :
        ServersLoadBalancer).servers = t :: tr ∧ t.port = "80") :=
  ⟨(resolve_clears_port sampleItem { servers := [] }
      { url := "", scheme := "http", port := "80" } []).1
      ⟨[{ address := "10.0.0.5:8080", port := "" }]⟩ (by decide),
   (resolve_clears_port { sampleItem with port := "9000" } { servers := [] }
      { url := "", scheme := "http", port := "80" } []).2.1 (by decide)
      ⟨[{ url := "http://10.0.0.5:9000", scheme := "", port := "" }]⟩ (by decide),
   (resolve_clears_port { sampleItem with port := "" } { servers := [] }
      { url := "", scheme := "http", port := "80" } []).2.2 (by decide)
      ⟨[{ url := "http://10.0.0.5:80", scheme := "", port := "80" }]⟩ (by decide)⟩

/-- C8: with an empty item port and a first server slot carrying no
pre-existing port (or no slot at all), both resolvers fail with the
missing-port error. -/
theorem resolve_missing_port (item : ItemData) (ltcp : TCPServersLoadBalancer)
    (lhttp : ServersLoadBalancer) (hp : item.port = "")
    (hslot : lhttp.servers = [] ∨ ∃ s rest, lhttp.servers = s :: rest ∧ s.port = "") :
    (addServerTCP item (some ltcp)).2 = some "port is missing" ∧
    (addServer item (some lhttp)).2 = some "port is missing" := by
  refine ⟨addServerTCP_eq_of_port_empty item ltcp hp, ?_⟩
  unfold addServer
  rcases hslot with hs | ⟨s, rest, hs, hsp⟩
  · simp [hp, hs]
  · simp [hp, hs, hsp]

/-- C8 witness: concrete instantiation of `resolve_missing_port` with an
empty item port and no pre-existing slot. -/
theorem resolve_missing_port_witness :
    (addServerTCP { sampleItem with port := "" } (some { servers := [] })).2 =
      some "port is missing" ∧
    (addServer { sampleItem with port := "" } (some { servers := [] })).2 =
      some "port is missing" :=
  resolve_missing_port { sampleItem with port := "" } { servers := [] }
    { servers := [] } rfl (Or.inl rfl)

/-- C9: on a load balancer with two or more server slots, both resolvers
leave every slot other than slot 0 unchanged: the final tail of server
slots equals the original tail, on success and failure alike. -/
theorem resolve_frame_tail (item : ItemData) (ltcp : TCPServersLoadBalancer)
    (lhttp : ServersLoadBalancer) (h1 : 2 ≤ ltcp.servers.length)
    (h2 : 2 ≤ lhttp.servers.length) :
    ((addServerTCP item (some ltcp)).1.map fun r => r.servers.tail) =
      some ltcp.servers.tail ∧
    ((addServer item (some lhttp)).1.map fun r => r.servers.tail) =
      some lhttp.servers.tail := by
  constructor
  · obtain ⟨s0, rest, hs⟩ : ∃ s0 rest, ltcp.servers = s0 :: rest := by
      cases hs : ltcp.servers with
      | nil => rw [hs] at h1; simp at h1
      | cons a l => exact ⟨a, l, rfl⟩
    unfold addServerTCP
    by_cases hp : item.port = "" <;> by_cases ha : item.address = "" <;>
      simp [hp, ha, hs, List.modifyHead]
  · obtain ⟨s0, rest, hs⟩ : ∃ s0 rest, lhttp.servers = s0 :: rest := by
      cases hs : lhttp.servers with
      | nil => rw [hs] at h2; simp at h2
      | cons a l => exact ⟨a, l, rfl⟩
    unfold addServer
    by_cases hp : item.port = "" <;> by_cases ha : item.address = "" <;>
      by_cases hsp : s0.port = "" <;> simp [hp, ha, hsp, hs, List.modifyHead]

/-- C9 witness: concrete two-slot load balancers; the second slot survives
both resolvers untouched. -/
theorem resolve_frame_tail_witness :
    ((addServerTCP sampleItem
        (some { servers := [{ address := "a", port := "1" },
                            { address := "b", port := "2" }] })).1.map
      fun r => r.servers.tail) = some [{ address := "b", port := "2" }] ∧
    ((addServer sampleItem
        (some { servers := [{ url := "x", scheme := "h", port := "1" },
                            { url := "y", scheme := "k", port := "2" }] })).1.map
      fun r => r.servers.tail) = some [{ url := "y", scheme := "k", port := "2" }] :=
  resolve_frame_tail sampleItem
    { servers := [{ address := "a", port := "1" }, { address := "b", port := "2" }] }
    { servers := [{ url := "x", scheme := "h", port := "1" },
                  { url := "y", scheme := "k", port := "2" }] }
    (by decide) (by decide)

theorem buildConfigurationStep_not_keep (E : Externals) (p : Provider)
    (m : String → Option Configuration) (item : ItemData)
    (hk : keepContainer E p item = false) :
    buildConfigurationStep E p m item = m := by
  unfold buildConfigurationStep
  simp [hk]

/-- C4: the eligibility filter accepts exactly the enabled items whose tags
match without a matcher error and whose health status is passing or
warning; consequently the loop body leaves the key-to-fragment map
unchanged on an item with any other status (critical, unknown, ...). -/
theorem keepContainer_iff (E : Externals) (p : Provider) (item : ItemData)
    (m : String → Option Configuration) :
    (keepContainer E p item = true ↔
      item.extraConf.enable = true ∧
        E.matchTags item.tags p.constraints = Except.ok true ∧
        (item.status = HealthPassing ∨ item.status = HealthWarning)) ∧
    (item.status ≠ HealthPassing → item.status ≠ HealthWarning →
      buildConfigurationStep E p m item = m) := by
  have hiff : keepContainer E p item = true ↔
      item.extraConf.enable = true ∧
        E.matchTags item.tags p.constraints = Except.ok true ∧
        (item.status = HealthPassing ∨ item.status = HealthWarning) := by
    unfold keepContainer
    cases he : item.extraConf.enable
    · simp [he]
    · cases hm : E.matchTags item.tags p.constraints with
      | error e => simp [hm]
      | ok b =>
        cases b
        · simp
        · by_cases h1 : item.status = HealthPassing <;>
            by_cases h2 : item.status = HealthWarning <;> simp [h1, h2]
  refine ⟨hiff, fun h1 h2 => ?_⟩
  apply buildConfigurationStep_not_keep
  cases hk : keepContainer E p item
  · rfl
  · exact absurd (hiff.mp hk).2.2 (by simp [h1, h2])

/-- C4 witness: a critical item is filtered out and contributes nothing to
the map. -/
theorem keepContainer_iff_witness :
    buildConfigurationStep trivialExternals sampleProvider (fun _ => none)
      { sampleItem with status := "critical" } = (fun _ => none) :=
  (keepContainer_iff trivialExternals sampleProvider
    { sampleItem with status := "critical" } (fun _ => none)).2
    (by decide) (by decide)

theorem buildConfigurationStep_eq_recordedFragment (E : Externals) (p : Provider)
    (m : String → Option Configuration) (item : ItemData) :
    buildConfigurationStep E p m item =
      match recordedFragment E p item with
      | none => m
      | some f => insertConf m (svcKey item.node item.name item.id) f := by
  unfold buildConfigurationStep recordedFragment buildConfigurationHTTPStep recordedFragmentHTTP
  cases hk : keepContainer E p item <;> simp
  cases hd : E.decodeConfiguration item.labels <;> simp
  rename_i conf
  by_cases hc : conf.tcp.routers.length > 0 ∨ conf.tcp.services.length > 0 <;>
    simp only [hc, if_true, if_false, decide_eq_true_eq]
  · cases hB : buildTCPServiceConfiguration item conf.tcp with
    | mk tcpConf err =>
      cases err <;> simp
      cases hH : httpEmpty { conf with tcp := E.buildTCPRouterConfiguration tcpConf }.http <;>
        simp
      · cases hS : buildServiceConfiguration item
          { conf with tcp := E.buildTCPRouterConfiguration tcpConf }.http with
        | mk httpConf err2 => cases err2 <;> simp
  · cases hS : buildServiceConfiguration item conf.http with
    | mk httpConf err2 => cases err2 <;> simp

theorem recordedFragment_eq_none_of_failure (E : Externals) (p : Provider)
    (item : ItemData) (h : itemFailure E item = true) :
    recordedFragment E p item = none := by
  unfold recordedFragment recordedFragmentHTTP
  unfold itemFailure at h
  cases hk : keepContainer E p item <;> simp
  cases hd : E.decodeConfiguration item.labels <;> rw [hd] at h <;> simp
  rename_i conf
  simp only [] at h
  by_cases hc : conf.tcp.routers.length > 0 ∨ conf.tcp.services.length > 0 <;>
    simp only [hc, if_true, if_false, decide_eq_true_eq] at h ⊢
  · cases hB : buildTCPServiceConfiguration item conf.tcp with
    | mk tcpConf err =>
      rw [hB] at h
      cases err <;> simp
      simp only [] at h
      cases hH : httpEmpty { conf with tcp := E.buildTCPRouterConfiguration tcpConf }.http <;>
        rw [hH] at h <;> simp at h ⊢
      · cases hS : buildServiceConfiguration item
            { conf with tcp := E.buildTCPRouterConfiguration tcpConf }.http with
        | mk httpConf err2 =>
          rw [hS] at h
          cases err2 <;> simp_all
      · rcases hc with hc2 | hc2 <;> simp [h.1.1, h.1.2] at hc2
  · cases hS : buildServiceConfiguration item conf.http with
    | mk httpConf err2 =>
      rw [hS] at h
      cases err2 <;> simp_all

theorem buildConfigurationStep_of_failure (E : Externals) (p : Provider)
    (m : String → Option Configuration) (item : ItemData)
    (h : itemFailure E item = true) :
    buildConfigurationStep E p m item = m := by
  rw [buildConfigurationStep_eq_recordedFragment,
    recordedFragment_eq_none_of_failure E p item h]

/-- C3: the batch builder is total, and an item on which decoding,
transport-layer completion or application-layer completion fails
contributes nothing: both the key-to-fragment map and the merged output
are exactly what they would be had the failing item not been in the
list. -/
theorem buildConfiguration_skips_failures (E : Externals) (p : Provider)
    (pre post : List ItemData) (item : ItemData) (h : itemFailure E item = true) :
    buildConfigurations E p (pre ++ item :: post) =
      buildConfigurations E p (pre ++ post) ∧
    buildConfiguration E p (pre ++ item :: post) =
      buildConfiguration E p (pre ++ post) := by
  have hmap : buildConfigurations E p (pre ++ item :: post) =
      buildConfigurations E p (pre ++ post) := by
    unfold buildConfigurations
    rw [List.foldl_append, List.foldl_append, List.foldl_cons,
      buildConfigurationStep_of_failure E p _ item h]
  exact ⟨hmap, congrArg E.merge hmap⟩

/-- C3 witness: a batch containing only an item whose labels fail to
decode builds the same (empty) map and output as the empty batch. -/
theorem buildConfiguration_skips_failures_witness :
    buildConfigurations failingExternals sampleProvider [sampleItem] =
      buildConfigurations failingExternals sampleProvider [] ∧
    buildConfiguration failingExternals sampleProvider [sampleItem] =
      buildConfiguration failingExternals sampleProvider [] :=
  buildConfiguration_skips_failures failingExternals sampleProvider [] [] sampleItem
    (by decide)

theorem svcKey_id_cancel (n s i j : String) (h : svcKey n s i = svcKey n s j) :
    i = j := by
  unfold svcKey at h
  have hd := congrArg String.data h
  simp only [String.data_append, List.append_assoc] at hd
  exact String.ext (List.append_cancel_left (List.append_cancel_left
    (List.append_cancel_left (List.append_cancel_left hd))))

/-- C5 counterexample: the distinct triples ("a", "b-c", "d") and
("a-b", "c", "d") derive the same key "a-b-c-d", so distinct triples do
not always yield distinct keys. -/
theorem svcKey_counterexample :
    svcKey "a" "b-c" "d" = svcKey "a-b" "c" "d" ∧
    ¬ (("a" : String) = "a-b" ∧ ("b-c" : String) = "c" ∧ ("d" : String) = "d") := by
  constructor <;> decide

/-- C5 (amended): the derived key is a pure function of the triple and,
for a fixed node and service name, injective in the instance id: two
recorded entries with identical node and service name but different
instance ids produce two distinct keys and both fragments are present in
the map handed to the merge step.  Distinct triples whose components
contain the separator may still collide. -/
theorem svcKey_distinct_ids (E : Externals) (p : Provider) (x y : ItemData)
    (fx fy : Configuration) (hnode : x.node = y.node) (hname : x.name = y.name)
    (hid : x.id ≠ y.id)
    (hx : recordedFragment E p x = some fx) (hy : recordedFragment E p y = some fy) :
    svcKey x.node x.name x.id ≠ svcKey y.node y.name y.id ∧
    buildConfigurations E p [x, y] (svcKey x.node x.name x.id) = some fx ∧
    buildConfigurations E p [x, y] (svcKey y.node y.name y.id) = some fy := by
  have hkey : svcKey x.node x.name x.id ≠ svcKey y.node y.name y.id := by
    rw [hnode, hname]
    exact fun hcontra => hid (svcKey_id_cancel _ _ _ _ hcontra)
  have hsteps : buildConfigurations E p [x, y] =
      insertConf (insertConf (fun _ => none) (svcKey x.node x.name x.id) fx)
        (svcKey y.node y.name y.id) fy := by
    unfold buildConfigurations
    simp only [List.foldl_cons, List.foldl_nil]
    rw [buildConfigurationStep_eq_recordedFragment E p _ x, hx]
    simp only []
    rw [buildConfigurationStep_eq_recordedFragment E p _ y, hy]
  refine ⟨hkey, ?_, ?_⟩
  · rw [hsteps]
    unfold insertConf
    simp [hkey]
  · rw [hsteps]
    unfold insertConf
    simp

/-- C5 witness: two eligible items sharing node and service name with
instance ids i1 and i2 land under two distinct keys and both fragments are
in the map. -/
theorem svcKey_distinct_ids_witness :
    svcKey "n1" "svc" "i1" ≠ svcKey "n1" "svc" "i2" ∧
    buildConfigurations trivialExternals sampleProvider
      [sampleItem, { sampleItem with id := "i2" }] (svcKey "n1" "svc" "i1") =
      some { http := { routers := [], middlewares := [],
                       services := [("svc", { loadBalancer := some { servers :=
                         [{ url := "http://10.0.0.5:8080", scheme := "", port := "" }] } })] },
             tcp := { routers := [], services := [] } } ∧
    buildConfigurations trivialExternals sampleProvider
      [sampleItem, { sampleItem with id := "i2" }] (svcKey "n1" "svc" "i2") =
      some { http := { routers := [], middlewares := [],
                       services := [("svc", { loadBalancer := some { servers :=
                         [{ url := "http://10.0.0.5:8080", scheme := "", port := "" }] } })] },
             tcp := { routers := [], services := [] } } :=
  svcKey_distinct_ids trivialExternals sampleProvider sampleItem
    { sampleItem with id := "i2" } _ _ rfl rfl (by decide) (by decide) (by decide)

/-- C7: an eligible item whose decoded fragment declares transport-layer
content, completes it successfully, and carries no application-layer
content is recorded with the synthesized transport-layer section and its
application-layer section exactly as decoded: neither application-layer
completion nor application-layer router synthesis is applied to it. -/
theorem tcp_only_fragment_untouched (E : Externals) (p : Provider)
    (m : String → Option Configuration) (item : ItemData) (conf : Configuration)
    (hkeep : keepContainer E p item = true)
    (hdec : E.decodeConfiguration item.labels = Except.ok conf)
    (htcp : conf.tcp.routers.length > 0 ∨ conf.tcp.services.length > 0)
    (hcomp : (buildTCPServiceConfiguration item conf.tcp).2 = none)
    (hhttp : conf.http.routers = [] ∧ conf.http.middlewares = [] ∧ conf.http.services = []) :
    buildConfigurationStep E p m item =
      insertConf m (svcKey item.node item.name item.id)
        { conf with tcp := E.buildTCPRouterConfiguration (buildTCPServiceConfiguration item conf.tcp).1 } := by
  unfold buildConfigurationStep
  cases hB : buildTCPServiceConfiguration item conf.tcp with
  | mk tcpConf err =>
    rw [hB] at hcomp
    simp only at hcomp
    subst hcomp
    simp [hkeep, hdec, hB, htcp, httpEmpty, hhttp.1, hhttp.2.1, hhttp.2.2]

/-- C7 witness: a decoder yielding a transport-layer-only fragment; the
recorded fragment keeps the empty application-layer section as decoded. -/
theorem tcp_only_fragment_untouched_witness :
    buildConfigurationStep tcpExternals sampleProvider (fun _ => none) sampleItem =
      insertConf (fun _ => none) (svcKey sampleItem.node sampleItem.name sampleItem.id)
        { http := { routers := [], middlewares := [], services := [] },
            tcp := tcpExternals.buildTCPRouterConfiguration
              (buildTCPServiceConfiguration sampleItem
                { routers := [],
                  services := [("db", { loadBalancer := some { servers := [] } })] }).1 } :=
  tcp_only_fragment_untouched tcpExternals sampleProvider (fun _ => none) sampleItem
    { http := { routers := [], middlewares := [], services := [] },
      tcp := { routers := [],
               services := [("db", { loadBalancer := some { servers := [] } })] } }
    (by decide) rfl (by decide) (by decide) ⟨rfl, rfl, rfl⟩

/-- C10: when several processed items derive the same key, the fragment of
the item that appears later in input order silently replaces the earlier
ones: after folding any item list followed by a recorded item y, the map
handed to the merge step holds exactly y's fragment at y's key. -/
theorem later_item_replaces_earlier (E : Externals) (p : Provider)
    (items : List ItemData) (y : ItemData) (fy : Configuration)
    (hy : recordedFragment E p y = some fy) :
    buildConfigurations E p (items ++ [y]) (svcKey y.node y.name y.id) = some fy := by
  unfold buildConfigurations
  rw [List.foldl_append, List.foldl_cons, List.foldl_nil]
  rw [buildConfigurationStep_eq_recordedFragment E p _ y, hy]
  simp [insertConf]

/-- C10 witness: two eligible items with the identical identity triple but
different ports; the later item's fragment (URL port 9999) is what the map
holds at the shared key, the earlier fragment (URL port 8080) is gone. -/
theorem later_item_replaces_earlier_witness :
    buildConfigurations trivialExternals sampleProvider
      [sampleItem, { sampleItem with port := "9999" }] (svcKey "n1" "svc" "i1") =
      some { http := { routers := [], middlewares := [],
                       services := [("svc", { loadBalancer := some { servers :=
                         [{ url := "http://10.0.0.5:9999", scheme := "", port := "" }] } })] },
             tcp := { routers := [], services := [] } } ∧
    ({ http := { routers := [], middlewares := [],
                 services := [("svc", { loadBalancer := some { servers :=
                   [{ url := "http://10.0.0.5:9999", scheme := "", port := "" }] } })] },
       tcp := { routers := [], services := [] } } : Configuration) ≠
      { http := { routers := [], middlewares := [],
                  services := [("svc", { loadBalancer := some { servers :=
                    [{ url := "http://10.0.0.5:8080", scheme := "", port := "" }] } })] },
        tcp := { routers := [], services := [] } } :=
  ⟨later_item_replaces_earlier trivialExternals sampleProvider [sampleItem]
      { sampleItem with port := "9999" } _ (by decide),
   by decide⟩

end ConsulCatalog
